import Mathlib

/-!
# Verification of the SkillRoute skill-gap analyzer core

Shallow embedding of `backend/app/services/analyzer/extractor.py` and
`backend/app/services/analyzer/matcher.py`.  Python dictionaries become
association lists with last-binding-wins lookup, Python sets of strings
become duplicate-free lists, Python floats are idealised as exact
rationals (every numeric constant in the source is decimal), and Python
`round` (round-half-to-even) is modelled exactly on rationals.  String
primitives (`lower`, `strip`, `split`, comparison) are modelled
character-by-character over `String.toList`, matching Python's
per-code-point semantics on the ASCII data the program handles.  The
optional spaCy enrichment pass degrades to a no-op when the model is
unavailable (the documented fallback); the embedding models that
regex-only path.
-/

set_option maxRecDepth 400000

namespace SkillRoute

/-- Lookup in an association list with Python-dict semantics: a later
binding of the same key overwrites an earlier one. -/
def dictGet? {α : Type} (pairs : List (String × α)) (k : String) : Option α :=
  (pairs.reverse.find? (fun p => p.1 == k)).map (fun p => p.2)

/-- `SKILLS_TAXONOMY` from extractor.py: category name to the set of
canonical lowercase skill names (sets rendered as lists). -/
def SKILLS_TAXONOMY : List (String × List String) := [
  ("language", ["python", "javascript", "typescript", "java", "c++", "c#", "go", "golang",
    "rust", "ruby", "php", "swift", "kotlin", "scala", "r", "matlab", "dart",
    "perl", "bash", "shell", "powershell", "sql", "html", "css", "sass", "less",
    "objective-c", "groovy", "lua", "haskell", "erlang", "elixir", "clojure",
    "f#", "cobol", "fortran", "solidity", "assembly"]),
  ("framework", ["react", "angular", "vue", "svelte", "nextjs", "nuxtjs", "gatsby",
    "remix", "astro", "react native", "flutter", "ionic", "electron",
    "django", "flask", "fastapi", "spring", "spring boot", "express", "nestjs",
    "koa", "hapi", "laravel", "rails", "ruby on rails", "asp.net", ".net core",
    "blazor", "quarkus", "micronaut", "ktor",
    "pytorch", "tensorflow", "keras", "jax", "scikit-learn", "xgboost",
    "lightgbm", "catboost", "huggingface", "transformers", "langchain",
    "llamaindex", "pandas", "numpy", "scipy", "matplotlib", "seaborn",
    "plotly", "bokeh", "streamlit", "gradio",
    "bootstrap", "tailwind", "material ui", "chakra ui", "ant design", "shadcn",
    "redux", "zustand", "mobx", "graphql", "apollo", "trpc",
    "sqlalchemy", "alembic", "prisma", "mongoose", "typeorm", "hibernate",
    "junit", "pytest", "jest", "vitest", "cypress", "playwright", "selenium",
    "mocha", "chai", "storybook",
    "celery", "grpc", "opentelemetry"]),
  ("tool", ["git", "github", "gitlab", "bitbucket",
    "docker", "kubernetes", "k8s", "helm",
    "jenkins", "github actions", "circleci", "travis ci", "teamcity",
    "argocd", "flux",
    "terraform", "pulumi", "ansible", "puppet", "chef", "vagrant",
    "nginx", "apache",
    "linux", "ubuntu", "centos", "debian",
    "jira", "confluence", "notion", "figma",
    "postman", "swagger", "openapi",
    "webpack", "vite", "babel", "eslint", "prettier",
    "sonarqube", "sentry", "grafana", "prometheus", "datadog", "splunk",
    "elasticsearch", "logstash", "kibana", "new relic",
    "airflow", "dbt", "mlflow", "wandb", "dvc", "ray",
    "kafka", "rabbitmq", "nats", "socket.io", "websockets",
    "oauth", "jwt", "keycloak", "vault",
    "istio", "envoy", "linkerd"]),
  ("database", ["mysql", "postgresql", "postgres", "sqlite", "mongodb", "cassandra",
    "couchdb", "dynamodb", "firestore", "firebase", "oracle", "mssql",
    "sql server", "mariadb", "neo4j", "influxdb", "clickhouse", "snowflake",
    "bigquery", "hive", "redis",
    "pinecone", "weaviate", "chroma", "qdrant",
    "supabase", "planetscale", "neon", "fauna"]),
  ("cloud", ["aws", "azure", "gcp", "google cloud", "heroku", "digitalocean",
    "vercel", "netlify", "cloudflare", "linode", "vultr",
    "ec2", "s3", "lambda", "rds", "eks", "ecs", "fargate", "sqs", "sns",
    "api gateway", "amplify",
    "azure functions", "azure devops", "azure aks",
    "cloud run", "app engine", "gke", "cloud functions", "firebase hosting"])]

/-- `SKILL_ALIASES` from extractor.py: common text variant to canonical name. -/
def SKILL_ALIASES : List (String × String) := [
  ("react.js", "react"), ("reactjs", "react"), ("react js", "react"),
  ("vue.js", "vue"), ("vuejs", "vue"), ("vue js", "vue"),
  ("next.js", "nextjs"), ("next js", "nextjs"),
  ("nuxt.js", "nuxtjs"), ("nuxt js", "nuxtjs"),
  ("nest.js", "nestjs"), ("nestjs", "nestjs"),
  ("node.js", "nodejs"), ("nodejs", "nodejs"), ("node js", "nodejs"),
  ("express.js", "express"), ("expressjs", "express"),
  ("scikit learn", "scikit-learn"), ("sklearn", "scikit-learn"),
  ("tf", "tensorflow"),
  ("torch", "pytorch"),
  ("postgres", "postgresql"), ("pg", "postgresql"),
  ("mongo", "mongodb"), ("mongo db", "mongodb"),
  ("ms sql", "mssql"), ("microsoft sql server", "sql server"),
  ("amazon web services", "aws"),
  ("google cloud platform", "gcp"),
  ("microsoft azure", "azure"),
  ("k8s", "kubernetes"),
  ("js", "javascript"), ("ts", "typescript"),
  ("py", "python"),
  ("c sharp", "c#"), ("c plus plus", "c++"),
  ("tailwindcss", "tailwind"), ("tailwind css", "tailwind"),
  ("material-ui", "material ui"), ("mui", "material ui"),
  ("gh actions", "github actions"),
  ("ci cd", "ci/cd"), ("cicd", "ci/cd"),
  ("rest api", "rest"), ("restful", "rest"), ("rest apis", "rest"),
  ("spring-boot", "spring boot")]

/-- `_SKILL_TO_CATEGORY` from extractor.py: the flattened
skill-to-category dictionary, in the comprehension's iteration order. -/
def skillToCategoryPairs : List (String × String) :=
  SKILLS_TAXONOMY.flatMap (fun p => p.2.map (fun s => (s, p.1)))

/-- The `\s` character class of Python's `re` module, which is also the
set of characters Python's `str.strip` and `str.split` treat as
whitespace. -/
def pyIsSpace (c : Char) : Bool :=
  c == ' ' || c == '\t' || c == '\n' || c == '\r' || c == '\x0b' || c == '\x0c'

/-- Python `str.lower()`: per-code-point lowercasing (ASCII range). -/
def pyLower (s : String) : String :=
  String.mk (s.toList.map Char.toLower)

/-- Python `str.strip()`: drop whitespace from both ends. -/
def stripWs (cs : List Char) : List Char :=
  ((cs.dropWhile pyIsSpace).reverse.dropWhile pyIsSpace).reverse

def pyStrip (s : String) : String :=
  String.mk (stripWs s.toList)

/-- `SkillExtractor._normalize`: lowercase, strip, then alias lookup. -/
def normalize (skill : String) : String :=
  let s := pyStrip (pyLower skill)
  (dictGet? SKILL_ALIASES s).getD s

/-- `SkillExtractor.get_category`: taxonomy lookup of the normalised
name, defaulting to "tool". -/
def get_category (skill : String) : String :=
  (dictGet? skillToCategoryPairs (normalize skill)).getD "tool"

/-- The `\w` character class of Python's `re` module, modelled over its
ASCII meaning: alphanumeric or underscore. -/
def isWordChar (c : Char) : Bool :=
  c.isAlphanum || c == '_'

/-- A character the substitution regex of `_keyword_match` keeps: word
characters, whitespace, and the five characters dot, hash, plus, minus,
slash (everything else is replaced by a space). -/
def keepChar (c : Char) : Bool :=
  isWordChar c || pyIsSpace c || c == '.' || c == '#' || c == '+' || c == '-' || c == '/'

/-- The first substitution of the cleaning step: replace each non-kept
character by a space. -/
def subKeep (cs : List Char) : List Char :=
  cs.map (fun c => if keepChar c then c else ' ')

/-- The second substitution of the cleaning step: collapse each maximal
whitespace run to a single space.  The Boolean argument records whether
the previous character was part of a whitespace run. -/
def collapseWsAux : List Char → Bool → List Char
  | [], _ => []
  | c :: rest, prevSpace =>
    if pyIsSpace c then
      if prevSpace then collapseWsAux rest true
      else ' ' :: collapseWsAux rest true
    else c :: collapseWsAux rest false

def collapseWs (cs : List Char) : List Char :=
  collapseWsAux cs false

/-- Python `str.split()` (no separator): split on whitespace runs,
producing no empty pieces.  The accumulator holds the current word,
reversed. -/
def splitWsAux : List Char → List Char → List (List Char)
  | [], acc => if acc.isEmpty then [] else [acc.reverse]
  | c :: rest, acc =>
    if pyIsSpace c then
      if acc.isEmpty then splitWsAux rest []
      else acc.reverse :: splitWsAux rest []
    else splitWsAux rest (c :: acc)

def splitWs (cs : List Char) : List (List Char) :=
  splitWsAux cs []

/-- The cleaning step of `SkillExtractor._keyword_match`: lowercase,
substitute non-kept characters by spaces, collapse whitespace, strip,
split into tokens. -/
def cleanTokens (text : String) : List String :=
  let lowered := text.toList.map Char.toLower
  let subbed := subKeep lowered
  let collapsed := collapseWs subbed
  let stripped := stripWs collapsed
  (splitWs stripped).map (fun cs => String.mk cs)

/-- Whether a normalised phrase is a known canonical skill
(`norm in _SKILL_TO_CATEGORY`). -/
def isKnownSkill (norm : String) : Bool :=
  (dictGet? skillToCategoryPairs norm).isSome

/-- One window-size pass of the greedy n-gram scan.  The state is the
set of found skills (duplicate-free list, a Python set) and the set of
consumed token positions. -/
def scanPass (tokens : List String) (size : Nat) (st : List String × List Nat) :
    List String × List Nat :=
  (List.range (tokens.length + 1 - size)).foldl (fun st i =>
    if (List.range' i size).any (fun j => st.2.contains j) then st
    else
      let phrase := " ".intercalate ((tokens.drop i).take size)
      let norm := normalize phrase
      if isKnownSkill norm then
        ((if st.1.contains norm then st.1 else st.1 ++ [norm]), st.2 ++ List.range' i size)
      else st) st

/-- `SkillExtractor._keyword_match`: greedy trigram-then-bigram-then-
unigram scan over the cleaned tokens. -/
def keywordMatch (text : String) : List String :=
  let tokens := cleanTokens text
  ([3, 2, 1].foldl (fun st size => scanPass tokens size st) ([], [])).1

/-- Python string `<`: lexicographic comparison by code point. -/
def lexLtb : List Char → List Char → Bool
  | [], [] => false
  | [], _ :: _ => true
  | _ :: _, [] => false
  | a :: as, b :: bs => if a < b then true else if b < a then false else lexLtb as bs

/-- Python string `<=` (the total order used by `sorted` and
`list.sort`), as a decidable proposition. -/
def strLe (a b : String) : Prop :=
  lexLtb b.toList a.toList = false

instance : DecidableRel strLe := fun _ _ =>
  inferInstanceAs (Decidable (_ = false))

/-- Python `sorted` / `list.sort`: ascending comparison sort.  On the
duplicate-free lists this program sorts, any comparison sort returns
the unique ascending reordering, so a structurally recursive insertion
sort models it exactly. -/
def pySorted (l : List String) : List String :=
  l.insertionSort strLe

/-- `categorised.setdefault(cat, [])` followed by append-if-absent, on
an insertion-ordered association list. -/
def insertBucket : List (String × List String) → String → String → List (String × List String)
  | [], cat, skill => [(cat, [skill])]
  | (c, b) :: rest, cat, skill =>
    if c == cat then (c, if b.contains skill then b else b ++ [skill]) :: rest
    else (c, b) :: insertBucket rest cat skill

/-- `SkillExtractor.extract` (regex-only path; the optional spaCy
enrichment degrades to a no-op when the model is unavailable): bucket
the found skills by category, then sort each bucket. -/
def extract (text : String) : List (String × List String) :=
  let found := keywordMatch text
  let categorised := found.foldl (fun acc skill => insertBucket acc (get_category skill) skill) []
  categorised.map (fun p => (p.1, pySorted p.2))

/-- `SkillExtractor.extract_flat`: the union of all buckets as a set,
returned sorted. -/
def extract_flat (text : String) : List String :=
  pySorted (((extract text).map (fun p => p.2)).flatten.dedup)

/-- Modelled from the spec: the role-keyword table behind
`SkillExtractor.infer_skills_from_role`, which the routing layer calls
when a job-description text yields zero extracted skills, but whose
definition is not among the provided analyzer sources.  Per spec §4.2
it is "a small set of known role keywords" mapped to "an associated
default skill list", and per §9 its exact coverage is an open question,
so the table contents here are representative. -/
def ROLE_DEFAULT_SKILLS : List (String × List String) := [
  ("game developer", ["c++", "c#", "unity", "unreal engine", "git"]),
  ("frontend developer", ["javascript", "html", "css", "react", "git"]),
  ("backend developer", ["python", "sql", "docker", "git", "rest"]),
  ("data scientist", ["python", "pandas", "numpy", "scikit-learn", "sql"]),
  ("devops engineer", ["docker", "kubernetes", "terraform", "linux", "aws"]),
  ("mobile developer", ["kotlin", "swift", "flutter", "git"])]

/-- Whether the first list is an initial segment of the second. -/
def startsWithSeq : List Char → List Char → Bool
  | [], _ => true
  | _ :: _, [] => false
  | a :: as, b :: bs => a == b && startsWithSeq as bs

/-- Python substring containment (`needle in hay`): the first list
occurs contiguously in the second. -/
def containsSeq : List Char → List Char → Bool
  | needle, [] => needle.isEmpty
  | needle, c :: rest => startsWithSeq needle (c :: rest) || containsSeq needle rest

/-- Modelled from the spec: `SkillExtractor.infer_skills_from_role`
(spec name `inferFromRoleTitle`) — a static lookup, not full
extraction: the first role keyword occurring in the lowercased,
stripped text contributes its default skill list; if the role text
matches nothing known the empty set is returned. -/
def infer_skills_from_role (text : String) : List String :=
  let t := pyStrip (pyLower text)
  match ROLE_DEFAULT_SKILLS.find? (fun p => containsSeq p.1.toList t.toList) with
  | some p => p.2
  | none => []

/-! ## matcher.py -/

/-- A curated learning-resource entry: title, url, type, duration. -/
structure ResourceEntry where
  title : String
  url : String
  kind : String
  duration : String
deriving DecidableEq

/-- `SKILL_RESOURCES` from matcher.py: curated free resources for a
skill name (entry order as in the source; the dictionary value format
title / url / type / duration becomes the `ResourceEntry` fields). -/
def SKILL_RESOURCES : List (String × List ResourceEntry) := [
  ("python", [⟨"Python Official Tutorial", "https://docs.python.org/3/tutorial/", "docs", "8h"⟩,
    ⟨"CS50P – Harvard Python", "https://cs50.harvard.edu/python/", "course", "20h"⟩,
    ⟨"Real Python – Beginner Guides", "https://realpython.com/start-here/", "article", "5h"⟩]),
  ("javascript", [⟨"javascript.info – Modern JS", "https://javascript.info/", "docs", "20h"⟩,
    ⟨"freeCodeCamp JS Algorithms", "https://www.freecodecamp.org/learn/javascript-algorithms-and-data-structures/", "course", "30h"⟩]),
  ("typescript", [⟨"TypeScript Handbook", "https://www.typescriptlang.org/docs/handbook/", "docs", "8h"⟩,
    ⟨"Matt Pocock – Total TypeScript (free)", "https://www.totaltypescript.com/tutorials", "course", "6h"⟩]),
  ("java", [⟨"Oracle Java Tutorials", "https://docs.oracle.com/javase/tutorial/", "docs", "15h"⟩,
    ⟨"Codecademy Learn Java", "https://www.codecademy.com/learn/learn-java", "course", "12h"⟩]),
  ("go", [⟨"Tour of Go", "https://go.dev/tour/", "docs", "5h"⟩,
    ⟨"Go by Example", "https://gobyexample.com/", "article", "6h"⟩]),
  ("rust", [⟨"The Rust Book", "https://doc.rust-lang.org/book/", "docs", "20h"⟩,
    ⟨"Rustlings Exercises", "https://github.com/rust-lang/rustlings", "project", "8h"⟩]),
  ("c++", [⟨"learncpp.com", "https://www.learncpp.com/", "article", "20h"⟩,
    ⟨"cppreference.com", "https://en.cppreference.com/", "docs", "5h"⟩]),
  ("c#", [⟨"Microsoft C# Docs", "https://learn.microsoft.com/en-us/dotnet/csharp/", "docs", "10h"⟩,
    ⟨"C# Fundamentals – freeCodeCamp YT", "https://www.youtube.com/watch?v=GhQdlIFylQ8", "video", "4h"⟩]),
  ("swift", [⟨"Swift.org – A Swift Tour", "https://docs.swift.org/swift-book/documentation/the-swift-programming-language/guidedtour/", "docs", "6h"⟩,
    ⟨"Hacking with Swift", "https://www.hackingwithswift.com/", "article", "15h"⟩]),
  ("kotlin", [⟨"Kotlin Koans", "https://kotlinlang.org/docs/koans.html", "project", "5h"⟩,
    ⟨"Kotlin Docs", "https://kotlinlang.org/docs/home.html", "docs", "8h"⟩]),
  ("react", [⟨"React Official Docs (beta)", "https://react.dev/learn", "docs", "10h"⟩,
    ⟨"Full Modern React – Scrimba", "https://scrimba.com/learn/learnreact", "course", "12h"⟩]),
  ("vue", [⟨"Vue 3 Official Guide", "https://vuejs.org/guide/introduction.html", "docs", "8h"⟩,
    ⟨"Vue Mastery – Intro to Vue", "https://www.vuemastery.com/courses/intro-to-vue-3/", "course", "4h"⟩]),
  ("angular", [⟨"Angular Official Docs", "https://angular.dev/overview", "docs", "12h"⟩,
    ⟨"Angular Crash Course – Traversy Media", "https://www.youtube.com/watch?v=3dHNOWTI7H8", "video", "2h"⟩]),
  ("fastapi", [⟨"FastAPI Official Tutorial", "https://fastapi.tiangolo.com/tutorial/", "docs", "6h"⟩,
    ⟨"FastAPI Crash Course – YT", "https://www.youtube.com/watch?v=7t2alSnE2-I", "video", "1h"⟩]),
  ("django", [⟨"Django Official Tutorial", "https://docs.djangoproject.com/en/5.0/intro/tutorial01/", "docs", "8h"⟩,
    ⟨"Django for Beginners – freeCodeCamp", "https://www.youtube.com/watch?v=F5mRW0jo-U4", "video", "4h"⟩]),
  ("flask", [⟨"Flask Mega-Tutorial", "https://blog.miguelgrinberg.com/post/the-flask-mega-tutorial-part-i-hello-world", "article", "10h"⟩,
    ⟨"Flask Quickstart", "https://flask.palletsprojects.com/en/3.0.x/quickstart/", "docs", "2h"⟩]),
  ("spring boot", [⟨"Spring Boot – Official Guides", "https://spring.io/guides", "docs", "8h"⟩,
    ⟨"Spring Boot Tutorial – Amigoscode", "https://www.youtube.com/watch?v=9SGDpanrc8U", "video", "3h"⟩]),
  ("pytorch", [⟨"PyTorch Official Tutorials", "https://pytorch.org/tutorials/", "docs", "10h"⟩,
    ⟨"Deep Learning with PyTorch – freeCodeCamp", "https://www.youtube.com/watch?v=GIsg-ZUy0MY", "video", "10h"⟩]),
  ("tensorflow", [⟨"TensorFlow Tutorials", "https://www.tensorflow.org/tutorials", "docs", "10h"⟩,
    ⟨"TF for Beginners – Google Dev", "https://developers.google.com/machine-learning/crash-course", "course", "15h"⟩]),
  ("scikit-learn", [⟨"Scikit-learn User Guide", "https://scikit-learn.org/stable/user_guide.html", "docs", "8h"⟩,
    ⟨"ML with Scikit-Learn – YT", "https://www.youtube.com/watch?v=0B5eIE_1vpU", "video", "6h"⟩]),
  ("unity", [⟨"Unity Learn – Official Courses", "https://learn.unity.com/", "course", "20h"⟩,
    ⟨"Unity Beginner to Pro – Brackeys YT", "https://www.youtube.com/c/Brackeys", "video", "10h"⟩]),
  ("unreal engine", [⟨"Unreal Online Learning", "https://dev.epicgames.com/community/unreal-engine/getting-started/games", "course", "20h"⟩,
    ⟨"UE5 Beginners Series – YT", "https://www.youtube.com/watch?v=k-zMkzmduqI", "video", "4h"⟩]),
  ("docker", [⟨"Docker Official Get Started", "https://docs.docker.com/get-started/", "docs", "4h"⟩,
    ⟨"Docker Tutorial – TechWorld with Nana", "https://www.youtube.com/watch?v=3c-iBn73dDE", "video", "4h"⟩]),
  ("kubernetes", [⟨"Kubernetes Official Basics", "https://kubernetes.io/docs/tutorials/kubernetes-basics/", "docs", "6h"⟩,
    ⟨"Kubernetes Course – TechWorld with Nana", "https://www.youtube.com/watch?v=X48VuDVv0do", "video", "4h"⟩]),
  ("git", [⟨"Pro Git Book (free)", "https://git-scm.com/book/en/v2", "docs", "5h"⟩,
    ⟨"Git & GitHub Crash Course – Traversy", "https://www.youtube.com/watch?v=SWYqp7iY_Tc", "video", "1h"⟩]),
  ("jenkins", [⟨"Jenkins Official Docs", "https://www.jenkins.io/doc/", "docs", "5h"⟩,
    ⟨"Jenkins CI/CD – TechWorld with Nana", "https://www.youtube.com/watch?v=6YZvp2GwT0A", "video", "2h"⟩]),
  ("gitlab", [⟨"GitLab CI/CD Docs", "https://docs.gitlab.com/ee/ci/", "docs", "4h"⟩,
    ⟨"GitLab CI Tutorial – YT", "https://www.youtube.com/watch?v=qP8kir2GUgo", "video", "1h"⟩]),
  ("terraform", [⟨"HashiCorp Learn – Terraform", "https://developer.hashicorp.com/terraform/tutorials", "course", "6h"⟩,
    ⟨"Terraform Crash Course – FCC YT", "https://www.youtube.com/watch?v=SLB_c_ayRMo", "video", "2h"⟩]),
  ("ansible", [⟨"Ansible Docs – Getting Started", "https://docs.ansible.com/ansible/latest/getting_started/index.html", "docs", "4h"⟩,
    ⟨"Ansible Full Course – TechWorld Nana", "https://www.youtube.com/watch?v=1id6ERvfozo", "video", "2h"⟩]),
  ("linux", [⟨"Linux Journey", "https://linuxjourney.com/", "course", "8h"⟩,
    ⟨"The Linux Command Line (free book)", "https://linuxcommand.org/tlcl.php", "docs", "10h"⟩]),
  ("bash", [⟨"Bash Scripting Tutorial", "https://www.shellscript.sh/", "article", "4h"⟩,
    ⟨"Bash Scripting – freeCodeCamp", "https://www.youtube.com/watch?v=e7BufAVwDiM", "video", "3h"⟩]),
  ("postgresql", [⟨"PostgreSQL Official Tutorial", "https://www.postgresql.org/docs/current/tutorial.html", "docs", "6h"⟩,
    ⟨"PostgreSQL Tutorial", "https://www.postgresqltutorial.com/", "article", "5h"⟩]),
  ("mysql", [⟨"MySQL 8 Reference Manual", "https://dev.mysql.com/doc/refman/8.0/en/", "docs", "5h"⟩,
    ⟨"MySQL Crash Course – Traversy YT", "https://www.youtube.com/watch?v=9ylj9NR0Lcg", "video", "1h"⟩]),
  ("mongodb", [⟨"MongoDB University (free)", "https://learn.mongodb.com/", "course", "8h"⟩,
    ⟨"MongoDB Crash Course – Traversy", "https://www.youtube.com/watch?v=-56x56UppqQ", "video", "1h"⟩]),
  ("redis", [⟨"Redis University (free)", "https://university.redis.com/", "course", "4h"⟩,
    ⟨"Redis Crash Course – Traversy", "https://www.youtube.com/watch?v=jgpVdJB2sKQ", "video", "1h"⟩]),
  ("sql", [⟨"SQLZoo", "https://sqlzoo.net/", "course", "5h"⟩,
    ⟨"Mode SQL Tutorial", "https://mode.com/sql-tutorial/", "article", "3h"⟩]),
  ("aws", [⟨"AWS Skill Builder (free tier)", "https://skillbuilder.aws/", "course", "10h"⟩,
    ⟨"AWS Cloud Practitioner Essentials", "https://explore.skillbuilder.aws/learn/course/134/aws-cloud-practitioner-essentials", "course", "6h"⟩]),
  ("gcp", [⟨"Google Cloud Skills Boost (free)", "https://www.cloudskillsboost.google/", "course", "10h"⟩,
    ⟨"GCP Fundamentals – Coursera (audit)", "https://www.coursera.org/learn/gcp-fundamentals", "course", "8h"⟩]),
  ("azure", [⟨"Microsoft Learn – Azure", "https://learn.microsoft.com/en-us/training/azure/", "course", "10h"⟩,
    ⟨"AZ-900 Study Guide", "https://learn.microsoft.com/en-us/credentials/certifications/azure-fundamentals/", "docs", "5h"⟩]),
  ("helm", [⟨"Helm Docs", "https://helm.sh/docs/", "docs", "3h"⟩,
    ⟨"Helm Tutorial – TechWorld Nana YT", "https://www.youtube.com/watch?v=-ykwb1d0DXU", "video", "1h"⟩]),
  ("prometheus", [⟨"Prometheus Docs", "https://prometheus.io/docs/introduction/overview/", "docs", "3h"⟩,
    ⟨"Prometheus & Grafana Tutorial – YT", "https://www.youtube.com/watch?v=h4Sl21AKiDg", "video", "2h"⟩]),
  ("grafana", [⟨"Grafana Tutorials", "https://grafana.com/tutorials/", "course", "3h"⟩,
    ⟨"Grafana Full Course – YT", "https://www.youtube.com/watch?v=CjABEnRvl0Y", "video", "2h"⟩]),
  ("hibernate", [⟨"Hibernate ORM Docs", "https://hibernate.org/orm/documentation/", "docs", "5h"⟩,
    ⟨"Hibernate Tutorial – Telusko YT", "https://www.youtube.com/watch?v=JR7-EdxDSf0", "video", "3h"⟩]),
  ("spring", [⟨"Spring Framework Docs", "https://spring.io/projects/spring-framework#learn", "docs", "8h"⟩,
    ⟨"Spring Boot Full Course – FCC YT", "https://www.youtube.com/watch?v=9SGDpanrc8U", "video", "3h"⟩]),
  ("pandas", [⟨"10 minutes to pandas", "https://pandas.pydata.org/docs/user_guide/10min.html", "docs", "2h"⟩,
    ⟨"Pandas Tutorial – Corey Schafer YT", "https://www.youtube.com/playlist?list=PL-osiE80TeTsWmV9i9c58mdDCSskIFdDS", "video", "6h"⟩]),
  ("numpy", [⟨"NumPy Official Tutorial", "https://numpy.org/doc/stable/user/absolute_beginners.html", "docs", "3h"⟩,
    ⟨"NumPy Full Course – FCC YT", "https://www.youtube.com/watch?v=QUT1VHiLmmI", "video", "1h"⟩]),
  ("tailwind", [⟨"Tailwind CSS Official Docs", "https://tailwindcss.com/docs", "docs", "3h"⟩,
    ⟨"Tailwind CSS Crash Course – Traversy", "https://www.youtube.com/watch?v=dFgzHOX84xQ", "video", "1h"⟩])]

/-- `get_skill_resources` from matcher.py: curated resources for a
skill, with a generic two-entry search-link fallback. -/
def get_skill_resources (skill : String) : List ResourceEntry :=
  let key := pyStrip (pyLower skill)
  match dictGet? SKILL_RESOURCES key with
  | some rs => rs
  | none =>
    [⟨"freeCodeCamp – " ++ skill,
      "https://www.freecodecamp.org/news/search/?query=" ++ skill.replace " " "+",
      "article", "varies"⟩,
     ⟨"YouTube – " ++ skill ++ " tutorial",
      "https://www.youtube.com/results?search_query=" ++ skill.replace " " "+" ++ "+tutorial+for+beginners",
      "video", "varies"⟩]

/-- `HTL_BY_CATEGORY` from matcher.py: hours-to-learn per category. -/
def HTL_BY_CATEGORY : List (String × Nat) := [
  ("language", 40),
  ("framework", 30),
  ("cloud", 20),
  ("database", 15),
  ("tool", 10)]

/-- `DEFAULT_HTL` from matcher.py: fallback for unrecognised categories. -/
def DEFAULT_HTL : Nat := 15

/-- The hours-to-learn assigned to a skill: HTL of its category,
defaulting to `DEFAULT_HTL`. -/
def htlOf (skill : String) : Nat :=
  (dictGet? HTL_BY_CATEGORY (get_category skill)).getD DEFAULT_HTL

/-- Python `round` on exact rationals: round to the nearest integer,
ties to the even one. -/
def roundHalfEven (q : ℚ) : ℤ :=
  if q - ⌊q⌋ < 1/2 then ⌊q⌋
  else if 1/2 < q - ⌊q⌋ then ⌊q⌋ + 1
  else if ⌊q⌋ % 2 = 0 then ⌊q⌋ else ⌊q⌋ + 1

/-- Python `round(x, n)` on exact rationals. -/
def pyRound (q : ℚ) (n : ℕ) : ℚ :=
  (roundHalfEven (q * 10 ^ n) : ℚ) / 10 ^ n

/-- The result dictionary of `calculate_semantic_match`. -/
structure MatchResult where
  match_percentage : ℚ
  job_readiness_score : ℚ
  matched_skills : List String
  missing_skills : List String
deriving DecidableEq

/-- `calculate_semantic_match` from matcher.py.  The Python float
constants 0.70 and 1.5 are idealised as the exact rationals they
denote in decimal. -/
def calculate_semantic_match (resume_skills jd_skills : List String) : MatchResult :=
  let resume_set := (resume_skills.map (fun s => pyStrip (pyLower s))).dedup
  let jd_set := (jd_skills.map (fun s => pyStrip (pyLower s))).dedup
  if jd_set.isEmpty then
    { match_percentage := 0, job_readiness_score := 0,
      matched_skills := [], missing_skills := [] }
  else
    let matched := pySorted (jd_set.filter (fun s => resume_set.contains s))
    let missing := pySorted (jd_set.filter (fun s => !resume_set.contains s))
    let match_pct := pyRound ((matched.length : ℚ) / (jd_set.length : ℚ) * 100) 2
    let breadth := min ((resume_set.length : ℚ) / ((max jd_set.length 1 : ℕ) : ℚ)) (3/2)
    let bonus := pyRound (min (breadth * 20) 30) 2
    let readiness := pyRound (min (match_pct * (7/10) + bonus) 100) 2
    { match_percentage := match_pct, job_readiness_score := readiness,
      matched_skills := matched, missing_skills := missing }

/-- A per-skill detail entry of a roadmap phase. -/
structure SkillDetail where
  name : String
  category : String
  hours : Nat
  resources : List ResourceEntry
deriving DecidableEq

/-- One phase of the learning roadmap. -/
structure RoadmapPhase where
  phase : String
  skills : List String
  skill_details : List SkillDetail
  estimated_hours : Nat
  timeline : String
deriving DecidableEq

/-- The full learning-velocity object. -/
structure LearningVelocity where
  total_estimated_hours : Nat
  weeks_to_readiness : ℚ
  roadmap : List RoadmapPhase
deriving DecidableEq

/-- The tagging loop of `build_learning_velocity`: each missing skill
becomes (name, category, htl hours). -/
def tagSkills (missing_skills : List String) : List (String × String × Nat) :=
  missing_skills.map (fun skill =>
    let cat := get_category skill
    (skill, cat, (dictGet? HTL_BY_CATEGORY cat).getD DEFAULT_HTL))

/-- `_build_skill_entries` from matcher.py. -/
def buildSkillEntries (items : List (String × String × Nat)) : List SkillDetail :=
  items.map (fun t => ⟨t.1, t.2.1, t.2.2, get_skill_resources t.1⟩)

/-- The Phase-1 ("Immediate Gaps") record of `build_learning_velocity`. -/
def mkPhase1 (phase1_items : List (String × String × Nat)) (safe_hpw : ℤ) : RoadmapPhase :=
  let p1_hours : Nat := (phase1_items.map (fun t => t.2.2)).sum
  let p1_weeks := max (roundHalfEven ((p1_hours : ℚ) / (safe_hpw : ℚ))) 1
  ⟨"Immediate Gaps",
   phase1_items.map (fun t => t.1),
   buildSkillEntries phase1_items,
   p1_hours,
   if 1 < p1_weeks then "Week 1–" ++ toString p1_weeks else "Week 1"⟩

/-- The Phase-2 ("Advanced Mastery") record of `build_learning_velocity`.
The source computes `p1_hours_used` as the Phase-1 sum when Phase 1 is
non-empty and 0 otherwise; the sum over an empty list is already 0. -/
def mkPhase2 (phase1_items phase2_items : List (String × String × Nat))
    (total_hours : Nat) (safe_hpw : ℤ) : RoadmapPhase :=
  let p2_hours : Nat := (phase2_items.map (fun t => t.2.2)).sum
  let p1_hours_used : Nat := (phase1_items.map (fun t => t.2.2)).sum
  let p2_start := max (roundHalfEven ((p1_hours_used : ℚ) / (safe_hpw : ℚ)) + 1) 3
  let p2_end := max (roundHalfEven ((total_hours : ℚ) / (safe_hpw : ℚ))) (p2_start + 1)
  ⟨"Advanced Mastery",
   phase2_items.map (fun t => t.1),
   buildSkillEntries phase2_items,
   p2_hours,
   "Week " ++ toString p2_start ++ "–" ++ toString p2_end⟩

/-- `build_learning_velocity` from matcher.py. -/
def build_learning_velocity (missing_skills : List String) (hours_per_week : ℤ) :
    LearningVelocity :=
  if missing_skills.isEmpty then
    { total_estimated_hours := 0, weeks_to_readiness := 0, roadmap := [] }
  else
    let tagged := tagSkills missing_skills
    let phase1_items := tagged.filter (fun t => t.2.2 ≤ 20)
    let phase2_items := tagged.filter (fun t => 20 < t.2.2)
    let total_hours : Nat := (tagged.map (fun t => t.2.2)).sum
    let safe_hpw := max hours_per_week 1
    let weeks_total := pyRound ((total_hours : ℚ) / (safe_hpw : ℚ)) 1
    { total_estimated_hours := total_hours,
      weeks_to_readiness := weeks_total,
      roadmap :=
        (if phase1_items.isEmpty then [] else [mkPhase1 phase1_items safe_hpw]) ++
        (if phase2_items.isEmpty then [] else [mkPhase2 phase1_items phase2_items total_hours safe_hpw]) }

/-! ## Rounding lemmas -/

theorem roundHalfEven_intCast (z : ℤ) : roundHalfEven ((z : ℚ)) = z := by
  unfold roundHalfEven
  rw [Int.floor_intCast, sub_self, if_pos (by norm_num : (0 : ℚ) < 1/2)]

theorem roundHalfEven_le (q : ℚ) : (roundHalfEven q : ℚ) ≤ q + 1/2 := by
  have h4 := Int.floor_le q
  have h5 := Int.lt_floor_add_one q
  unfold roundHalfEven
  split_ifs with h1 h2 h3
  · linarith
  · push_cast; linarith
  · linarith
  · push_cast; linarith [not_lt.mp h1]

theorem le_roundHalfEven (q : ℚ) : q - 1/2 ≤ (roundHalfEven q : ℚ) := by
  have h4 := Int.floor_le q
  have h5 := Int.lt_floor_add_one q
  unfold roundHalfEven
  split_ifs with h1 h2 h3 <;> push_cast <;> linarith

theorem roundHalfEven_nonneg (q : ℚ) (h : 0 ≤ q) : 0 ≤ roundHalfEven q := by
  have h1 := le_roundHalfEven q
  have h2 : ((-1 : ℤ) : ℚ) < (roundHalfEven q : ℚ) := by push_cast; linarith
  have h3 := Int.cast_lt.mp h2
  omega

theorem roundHalfEven_le_int (q : ℚ) (z : ℤ) (h : q ≤ (z : ℚ)) : roundHalfEven q ≤ z := by
  have h1 := roundHalfEven_le q
  have h2 : (roundHalfEven q : ℚ) < ((z + 1 : ℤ) : ℚ) := by push_cast; linarith
  have h3 := Int.cast_lt.mp h2
  omega

theorem pyRound_eq_int (q : ℚ) (n : ℕ) (z : ℤ) (h : q * 10 ^ n = (z : ℚ)) :
    pyRound q n = (z : ℚ) / 10 ^ n := by
  unfold pyRound
  rw [h, roundHalfEven_intCast]

theorem pyRound_nonneg (q : ℚ) (n : ℕ) (h : 0 ≤ q) : 0 ≤ pyRound q n := by
  unfold pyRound
  have h1 := roundHalfEven_nonneg (q * 10 ^ n) (by positivity)
  exact div_nonneg (by exact_mod_cast h1) (by positivity)

theorem pyRound_le_int (q : ℚ) (n : ℕ) (z : ℤ) (h : q ≤ (z : ℚ)) :
    pyRound q n ≤ (z : ℚ) := by
  unfold pyRound
  have hle : q * 10 ^ n ≤ ((z * 10 ^ n : ℤ) : ℚ) := by
    push_cast
    have : (0 : ℚ) < 10 ^ n := by positivity
    nlinarith
  have h2 := roundHalfEven_le_int _ _ hle
  rw [div_le_iff₀ (by positivity : (0 : ℚ) < 10 ^ n)]
  calc ((roundHalfEven (q * 10 ^ n) : ℤ) : ℚ) ≤ ((z * 10 ^ n : ℤ) : ℚ) := by exact_mod_cast h2
    _ = (z : ℚ) * 10 ^ n := by push_cast; ring

/-! ## Claim theorems -/

/-- Claim C1: for resume skills python, docker and JD skills python,
docker, kubernetes, aws with 10 hours per week, the match percentage is
50.0 with matched docker, python and missing aws, kubernetes;
kubernetes (category tool, 10 HTL hours) and aws (category cloud, 20
HTL hours) both land in the single "Immediate Gaps" phase with 30
estimated hours, and weeks to readiness is 3.0. -/
theorem c1_scenario_match_and_velocity :
    (calculate_semantic_match ["python", "docker"]
        ["python", "docker", "kubernetes", "aws"]).match_percentage = 50
  ∧ (calculate_semantic_match ["python", "docker"]
        ["python", "docker", "kubernetes", "aws"]).matched_skills = ["docker", "python"]
  ∧ (calculate_semantic_match ["python", "docker"]
        ["python", "docker", "kubernetes", "aws"]).missing_skills = ["aws", "kubernetes"]
  ∧ get_category "kubernetes" = "tool" ∧ htlOf "kubernetes" = 10
  ∧ get_category "aws" = "cloud" ∧ htlOf "aws" = 20
  ∧ (build_learning_velocity ["aws", "kubernetes"] 10).roadmap.map
      (fun p => (p.phase, p.skills, p.estimated_hours)) =
      [("Immediate Gaps", ["aws", "kubernetes"], 30)]
  ∧ (build_learning_velocity ["aws", "kubernetes"] 10).total_estimated_hours = 30
  ∧ (build_learning_velocity ["aws", "kubernetes"] 10).weeks_to_readiness = 3 := by
  refine ⟨?_, by decide, by decide, by decide, by decide, by decide, by decide,
    by decide, by decide, ?_⟩
  · have h : (calculate_semantic_match ["python", "docker"]
        ["python", "docker", "kubernetes", "aws"]).match_percentage =
        pyRound ((2 : ℚ) / (4 : ℚ) * 100) 2 := rfl
    rw [h, pyRound_eq_int _ _ 5000 (by norm_num)]
    norm_num
  · have h : (build_learning_velocity ["aws", "kubernetes"] 10).weeks_to_readiness =
        pyRound ((30 : ℚ) / ((10 : ℤ) : ℚ)) 1 := rfl
    rw [h, pyRound_eq_int _ _ 30 (by push_cast; norm_num)]
    norm_num

/-- Claim C5: scoring any resume skill list (including the empty one)
against an empty JD skill list returns exactly the all-zero result with
empty matched and missing lists, and cannot fail. -/
theorem c5_empty_jd_all_zero (resume_skills : List String) :
    calculate_semantic_match resume_skills [] =
      { match_percentage := 0, job_readiness_score := 0,
        matched_skills := [], missing_skills := [] } := rfl

/-- Claim C6: extracting from "spring boot developer" yields a set
containing "spring boot" and not "spring": the bigram pass consumes
token positions 0 and 1 before the unigram pass runs, suppressing the
shorter match. -/
theorem c6_longest_match_spring_boot :
    extract_flat "spring boot developer" = ["spring boot"]
  ∧ "spring boot" ∈ extract_flat "spring boot developer"
  ∧ "spring" ∉ extract_flat "spring boot developer" := by decide

/-- Claim C2, evaluated at the text from the spec scenario: the
extracted set is exactly postgresql and react.  "react.js" normalises
to "react" as described, but although "node.js" normalises to "nodejs"
via the alias table, "nodejs" is not a member of `SKILLS_TAXONOMY`
(contrary to the alias table's stated contract of mapping variants to
canonical taxonomy names), so no nodejs entry is produced. -/
theorem c2_nodejs_missing_from_taxonomy :
    extract_flat "Experience with React.js, Node.js, and PostgreSQL" = ["postgresql", "react"]
  ∧ normalize "react.js" = "react"
  ∧ normalize "node.js" = "nodejs"
  ∧ isKnownSkill "nodejs" = false
  ∧ "nodejs" ∉ extract_flat "Experience with React.js, Node.js, and PostgreSQL" := by
  decide

/-! ## Character provenance through the cleaning pipeline (for C4) -/

theorem mem_of_mem_stripWs {c : Char} {cs : List Char} (h : c ∈ stripWs cs) : c ∈ cs := by
  unfold stripWs at h
  rw [List.mem_reverse] at h
  have h1 := (List.dropWhile_sublist (l := (cs.dropWhile pyIsSpace).reverse) pyIsSpace).mem h
  rw [List.mem_reverse] at h1
  exact (List.dropWhile_sublist pyIsSpace).mem h1

theorem mem_of_mem_collapseWsAux {c : Char} :
    ∀ (cs : List Char) (b : Bool), c ∈ collapseWsAux cs b → c = ' ' ∨ c ∈ cs := by
  intro cs
  induction cs with
  | nil => intro b h; simp [collapseWsAux] at h
  | cons a rest ih =>
    intro b h
    unfold collapseWsAux at h
    split_ifs at h with h1 h2
    · rcases ih true h with h3 | h3
      · exact Or.inl h3
      · exact Or.inr (List.mem_cons_of_mem _ h3)
    · rcases List.mem_cons.mp h with rfl | h3
      · exact Or.inl rfl
      · rcases ih true h3 with h4 | h4
        · exact Or.inl h4
        · exact Or.inr (List.mem_cons_of_mem _ h4)
    · rcases List.mem_cons.mp h with rfl | h3
      · exact Or.inr (List.mem_cons_self _ _)
      · rcases ih false h3 with h4 | h4
        · exact Or.inl h4
        · exact Or.inr (List.mem_cons_of_mem _ h4)

theorem splitWsAux_chars (Q : Char → Prop) :
    ∀ (cs acc : List Char),
      (∀ c ∈ cs, pyIsSpace c = false → Q c) →
      (∀ c ∈ acc, Q c) →
      ∀ t ∈ splitWsAux cs acc, ∀ c ∈ t, Q c := by
  intro cs
  induction cs with
  | nil =>
    intro acc _ hacc t ht c hc
    unfold splitWsAux at ht
    split_ifs at ht
    · simp at ht
    · rcases List.mem_singleton.mp ht with rfl
      exact hacc c (List.mem_reverse.mp hc)
  | cons a rest ih =>
    intro acc hcs hacc t ht c hc
    unfold splitWsAux at ht
    split_ifs at ht with h1 h2
    · exact ih [] (fun d hd => hcs d (List.mem_cons_of_mem _ hd)) (by simp) t ht c hc
    · rcases List.mem_cons.mp ht with rfl | ht2
      · exact hacc c (List.mem_reverse.mp hc)
      · exact ih [] (fun d hd => hcs d (List.mem_cons_of_mem _ hd)) (by simp) t ht2 c hc
    · refine ih (a :: acc) (fun d hd => hcs d (List.mem_cons_of_mem _ hd)) ?_ t ht c hc
      intro d hd
      rcases List.mem_cons.mp hd with rfl | hd2
      · exact hcs d (List.mem_cons_self _ _) (Bool.eq_false_iff.mpr h1)
      · exact hacc d hd2

theorem splitWsAux_not_space :
    ∀ (cs acc : List Char),
      (∀ c ∈ acc, pyIsSpace c = false) →
      ∀ t ∈ splitWsAux cs acc, ∀ c ∈ t, pyIsSpace c = false := by
  intro cs
  induction cs with
  | nil =>
    intro acc hacc t ht c hc
    unfold splitWsAux at ht
    split_ifs at ht
    · simp at ht
    · rcases List.mem_singleton.mp ht with rfl
      exact hacc c (List.mem_reverse.mp hc)
  | cons a rest ih =>
    intro acc hacc t ht c hc
    unfold splitWsAux at ht
    split_ifs at ht with h1 h2
    · exact ih [] (by simp) t ht c hc
    · rcases List.mem_cons.mp ht with rfl | ht2
      · exact hacc c (List.mem_reverse.mp hc)
      · exact ih [] (by simp) t ht2 c hc
    · refine ih (a :: acc) ?_ t ht c hc
      intro d hd
      rcases List.mem_cons.mp hd with rfl | hd2
      · exact Bool.eq_false_iff.mpr h1
      · exact hacc d hd2

/-- Claim C4 counterexample: the claim as stated fails on the input
"a_b".  Python's word-character class keeps the underscore, so the
cleaning step leaves "a_b" as a single token rather than replacing the
underscore with a space, and the underscore is neither alphanumeric nor
one of the five kept punctuation characters. -/
theorem c4_counterexample_underscore :
    cleanTokens "a_b" = ["a_b"]
  ∧ cleanTokens "a_b" ≠ ["a", "b"]
  ∧ ¬ ('_'.isAlphanum = true ∨ '_' ∈ (['.', '#', '+', '-', '/'] : List Char)) := by
  decide

/-- Claim C4 (amended): every character that is not a word character
(alphanumeric or underscore), whitespace, '.', '#', '+', '-', or '/'
is replaced with a space in the cleaning step; consequently every token
produced by the cleaning step consists only of word characters and the
characters '.', '#', '+', '-', '/'. -/
theorem c4_amended_token_chars (text : String) :
    ∀ t ∈ cleanTokens text, ∀ c ∈ t.toList,
      isWordChar c = true ∨ c ∈ (['.', '#', '+', '-', '/'] : List Char) := by
  intro t ht c hc
  unfold cleanTokens at ht
  rcases List.mem_map.mp ht with ⟨ts, hts, rfl⟩
  have hc2 : c ∈ ts := hc
  have hQ : ∀ d ∈ stripWs (collapseWs (subKeep (text.toList.map Char.toLower))),
      pyIsSpace d = false → keepChar d = true := by
    intro d hd _
    have hd2 := mem_of_mem_stripWs hd
    rcases mem_of_mem_collapseWsAux _ false hd2 with rfl | hd3
    · rfl
    · rcases List.mem_map.mp hd3 with ⟨e, _, he⟩
      by_cases hk : keepChar e = true
      · rw [if_pos hk] at he; rw [← he]; exact hk
      · rw [if_neg hk] at he; rw [← he]; rfl
  have hns : pyIsSpace c = false :=
    splitWsAux_not_space _ [] (by simp) ts hts c hc2
  have hkeep : keepChar c = true := by
    refine splitWsAux_chars (fun d => pyIsSpace d = false → keepChar d = true)
      _ [] ?_ (by simp) ts hts c hc2 hns
    intro d hd _ hdns
    exact hQ d hd hdns
  unfold keepChar at hkeep
  simp only [Bool.or_eq_true, beq_iff_eq] at hkeep
  rcases hkeep with ((((((hw | hs) | h) | h) | h) | h) | h)
  · exact Or.inl hw
  · rw [hs] at hns; simp [pyIsSpace] at hns
  all_goals subst h
  all_goals simp

/-- Witness for the amended C4: in the token "a_b" produced from the
input "a_b", the underscore is a word character. -/
theorem c4_amended_witness :
    isWordChar '_' = true ∨ '_' ∈ (['.', '#', '+', '-', '/'] : List Char) :=
  c4_amended_token_chars "a_b" "a_b" (by decide) '_' (by decide)

/-- Claim C10: `get_category` always returns one of the five taxonomy
categories (defaulting to "tool" for unlisted names), so the HTL table
lookup in `build_learning_velocity` always succeeds and the
`DEFAULT_HTL` fallback branch is unreachable; a skill whose normalised
name is absent from the taxonomy is assigned the tool estimate of 10
hours, never 15. -/
theorem c10_category_total_default_htl (skill : String) :
    get_category skill ∈ ["language", "framework", "tool", "database", "cloud"]
  ∧ (∃ h, dictGet? HTL_BY_CATEGORY (get_category skill) = some h ∧ htlOf skill = h)
  ∧ (dictGet? skillToCategoryPairs (normalize skill) = none →
      get_category skill = "tool" ∧ htlOf skill = 10) := by
  have hmem : get_category skill ∈ ["language", "framework", "tool", "database", "cloud"] := by
    unfold get_category
    cases hc : dictGet? skillToCategoryPairs (normalize skill) with
    | none => decide
    | some cat =>
      unfold dictGet? at hc
      rcases Option.map_eq_some'.mp hc with ⟨p, hp, rfl⟩
      have hmem2 : p ∈ skillToCategoryPairs.reverse := List.mem_of_find?_eq_some hp
      rw [List.mem_reverse] at hmem2
      have hall : ∀ q ∈ skillToCategoryPairs,
          q.2 ∈ ["language", "framework", "tool", "database", "cloud"] := by decide
      simpa using hall p hmem2
  refine ⟨hmem, ?_, ?_⟩
  · simp only [List.mem_cons, List.not_mem_nil, or_false] at hmem
    unfold htlOf
    rcases hmem with h | h | h | h | h <;> rw [h]
    · exact ⟨40, by decide, by decide⟩
    · exact ⟨30, by decide, by decide⟩
    · exact ⟨10, by decide, by decide⟩
    · exact ⟨15, by decide, by decide⟩
    · exact ⟨20, by decide, by decide⟩
  · intro hnone
    constructor
    · unfold get_category
      rw [hnone]
      rfl
    · unfold htlOf get_category
      rw [hnone]
      decide

/-- Witness for C10: "foobar" is absent from the taxonomy after
normalisation, falls back to the "tool" category and is assigned 10
hours. -/
theorem c10_witness :
    dictGet? skillToCategoryPairs (normalize "foobar") = none
  ∧ get_category "foobar" = "tool" ∧ htlOf "foobar" = 10 :=
  ⟨by decide, (c10_category_total_default_htl "foobar").2.2 (by decide)⟩

/-- Claim C3 (modelled from the spec, as the method body is not among
the provided sources): the role-title fallback is a static lookup,
total on every input text: if no known role keyword occurs in the
lowercased, stripped text it returns the empty set, and in every case
it returns either the empty set or the default skill list of a table
entry. -/
theorem c3_infer_role_total (text : String) :
    ((∀ p ∈ ROLE_DEFAULT_SKILLS,
        containsSeq p.1.toList (pyStrip (pyLower text)).toList = false) →
      infer_skills_from_role text = [])
  ∧ (infer_skills_from_role text = [] ∨
      ∃ p ∈ ROLE_DEFAULT_SKILLS, infer_skills_from_role text = p.2) := by
  constructor
  · intro h
    have hnone : ROLE_DEFAULT_SKILLS.find?
        (fun p => containsSeq p.1.toList (pyStrip (pyLower text)).toList) = none := by
      rw [List.find?_eq_none]
      intro p hp
      rw [h p hp]
      exact Bool.false_ne_true
    simp only [infer_skills_from_role]
    rw [hnone]
  · simp only [infer_skills_from_role]
    cases hf : ROLE_DEFAULT_SKILLS.find?
        (fun p => containsSeq p.1.toList (pyStrip (pyLower text)).toList) with
    | none => exact Or.inl rfl
    | some p => exact Or.inr ⟨p, List.mem_of_find?_eq_some hf, rfl⟩

/-- Witness for C3: the text "zzz" matches no known role keyword and
the fallback returns the empty set. -/
theorem c3_witness : infer_skills_from_role "zzz" = [] :=
  (c3_infer_role_total "zzz").1 (by decide)

/-! ## The Python string order (for C9) -/

theorem lexLtb_cons (a b : Char) (as bs : List Char) :
    lexLtb (a :: as) (b :: bs) = true ↔ (a < b ∨ (a = b ∧ lexLtb as bs = true)) := by
  rcases lt_trichotomy a b with h | h | h
  · simp [lexLtb, h]
  · subst h
    simp [lexLtb, lt_irrefl]
  · simp [lexLtb, asymm h, h, h.ne']

theorem lexLtb_irrefl : ∀ as : List Char, lexLtb as as = false := by
  intro as
  induction as with
  | nil => rfl
  | cons a t ih => simp [lexLtb, lt_irrefl, ih]

theorem lexLtb_trans :
    ∀ (as bs cs : List Char),
      lexLtb as bs = true → lexLtb bs cs = true → lexLtb as cs = true := by
  intro as
  induction as with
  | nil =>
    intro bs cs h1 h2
    cases bs with
    | nil => simp [lexLtb] at h1
    | cons b bt =>
      cases cs with
      | nil => simp [lexLtb] at h2
      | cons c ct => simp [lexLtb]
  | cons a as1 ih =>
    intro bs cs h1 h2
    cases bs with
    | nil => simp [lexLtb] at h1
    | cons b bt =>
      cases cs with
      | nil => simp [lexLtb] at h2
      | cons c ct =>
        rw [lexLtb_cons] at h1 h2 ⊢
        rcases h1 with h1 | ⟨rfl, h1⟩
        · rcases h2 with h2 | ⟨rfl, h2⟩
          · exact Or.inl (lt_trans h1 h2)
          · exact Or.inl h1
        · rcases h2 with h2 | ⟨rfl, h2⟩
          · exact Or.inl h2
          · exact Or.inr ⟨rfl, ih bt ct h1 h2⟩

theorem eq_of_lexLtb_false :
    ∀ (as bs : List Char),
      lexLtb as bs = false → lexLtb bs as = false → as = bs := by
  intro as
  induction as with
  | nil =>
    intro bs h1 _
    cases bs with
    | nil => rfl
    | cons b bt => simp [lexLtb] at h1
  | cons a as1 ih =>
    intro bs h1 h2
    cases bs with
    | nil => simp [lexLtb] at h2
    | cons b bt =>
      rcases lt_trichotomy a b with h | h | h
      · rw [(lexLtb_cons a b as1 bt).mpr (Or.inl h)] at h1
        exact absurd h1 (by simp)
      · subst h
        have h1' : lexLtb as1 bt = false := by
          by_contra hx
          rw [Bool.not_eq_false] at hx
          rw [(lexLtb_cons a a as1 bt).mpr (Or.inr ⟨rfl, hx⟩)] at h1
          exact absurd h1 (by simp)
        have h2' : lexLtb bt as1 = false := by
          by_contra hx
          rw [Bool.not_eq_false] at hx
          rw [(lexLtb_cons a a bt as1).mpr (Or.inr ⟨rfl, hx⟩)] at h2
          exact absurd h2 (by simp)
        rw [ih bt h1' h2']
      · rw [(lexLtb_cons b a bt as1).mpr (Or.inl h)] at h2
        exact absurd h2 (by simp)

theorem strLe_total (a b : String) : strLe a b ∨ strLe b a := by
  unfold strLe
  by_cases h : lexLtb b.toList a.toList = true
  · right
    by_contra hx
    rw [Bool.not_eq_false] at hx
    have h3 := lexLtb_trans _ _ _ h hx
    rw [lexLtb_irrefl] at h3
    exact absurd h3 (by simp)
  · left
    exact Bool.eq_false_iff.mpr h

theorem strLe_trans (a b c : String) (h1 : strLe a b) (h2 : strLe b c) : strLe a c := by
  unfold strLe at h1 h2 ⊢
  by_contra hx
  rw [Bool.not_eq_false] at hx
  by_cases hbc : lexLtb b.toList c.toList = true
  · have hba := lexLtb_trans _ _ _ hbc hx
    rw [h1] at hba
    exact absurd hba (by simp)
  · have hb : b.toList = c.toList :=
      eq_of_lexLtb_false _ _ (Bool.eq_false_iff.mpr hbc) h2
    rw [← hb] at hx
    rw [h1] at hx
    exact absurd hx (by simp)

instance : IsTotal String strLe := ⟨strLe_total⟩

instance : IsTrans String strLe := ⟨strLe_trans⟩

theorem lexLtb_iff_lex :
    ∀ (as bs : List Char), lexLtb as bs = true ↔ List.Lex (· < ·) as bs := by
  intro as
  induction as with
  | nil =>
    intro bs
    cases bs with
    | nil =>
      simp only [lexLtb]
      constructor
      · intro h; exact absurd h (by simp)
      · intro h; cases h
    | cons b bt =>
      simp only [lexLtb, true_iff]
      exact List.Lex.nil
  | cons a as1 ih =>
    intro bs
    cases bs with
    | nil =>
      simp only [lexLtb]
      constructor
      · intro h; exact absurd h (by simp)
      · intro h; cases h
    | cons b bt =>
      rw [lexLtb_cons]
      constructor
      · rintro (h | ⟨rfl, h⟩)
        · exact List.Lex.rel h
        · exact List.Lex.cons ((ih bt).mp h)
      · intro h
        cases h with
        | rel h => exact Or.inl h
        | cons h => exact Or.inr ⟨rfl, (ih bt).mpr h⟩

/-- The Boolean comparator of the embedding agrees with the
lexicographic linear order on `String`. -/
theorem strLe_iff_le (a b : String) : strLe a b ↔ a ≤ b := by
  unfold strLe
  rw [← not_lt, String.lt_iff_toList_lt]
  constructor
  · intro h hlex
    have h2 := (lexLtb_iff_lex b.toList a.toList).mpr hlex
    rw [h] at h2
    exact absurd h2 (by simp)
  · intro h
    by_contra hx
    rw [Bool.not_eq_false] at hx
    exact h ((lexLtb_iff_lex _ _).mp hx)

/-- Claim C9: for every input text, `extract_flat` returns a list with
no duplicate canonical names, sorted in the lexicographic string
order. -/
theorem c9_extract_flat_sorted_nodup (text : String) :
    (extract_flat text).Nodup ∧ List.Sorted (· ≤ ·) (extract_flat text) := by
  unfold extract_flat pySorted
  constructor
  · exact (List.perm_insertionSort strLe _).symm.nodup
      (List.nodup_dedup _)
  · have hs := List.sorted_insertionSort strLe
      ((((extract text).map (fun p => p.2)).flatten).dedup)
    exact hs.imp (fun h => (strLe_iff_le _ _).mp h)

/-! ## Score bounds (for C8) -/

theorem pct_bounds (l : List String) (p : String → Bool) :
    0 ≤ pyRound (((pySorted (l.filter p)).length : ℚ) / (l.length : ℚ) * 100) 2 ∧
    pyRound (((pySorted (l.filter p)).length : ℚ) / (l.length : ℚ) * 100) 2 ≤ 100 := by
  have hub : ((pySorted (l.filter p)).length : ℚ) / (l.length : ℚ) * 100 ≤ ((100 : ℤ) : ℚ) := by
    rcases Nat.eq_zero_or_pos l.length with h0 | hpos
    · rw [h0]
      norm_num
    · have hle : (pySorted (l.filter p)).length ≤ l.length := by
        unfold pySorted
        rw [(List.perm_insertionSort strLe (l.filter p)).length_eq]
        exact List.length_filter_le _ _
      have hlen : (0 : ℚ) < (l.length : ℚ) := by exact_mod_cast hpos
      have hleq : ((pySorted (l.filter p)).length : ℚ) ≤ (l.length : ℚ) := by exact_mod_cast hle
      push_cast
      rw [div_mul_eq_mul_div, div_le_iff₀ hlen]
      nlinarith
  refine ⟨pyRound_nonneg _ _ (by positivity), ?_⟩
  simpa using pyRound_le_int _ _ 100 hub

theorem readiness_bounds (p bo : ℚ) (hp : 0 ≤ p) (hbo : 0 ≤ bo) :
    0 ≤ pyRound (min (p * (7/10) + bo) 100) 2 ∧
    pyRound (min (p * (7/10) + bo) 100) 2 ≤ 100 := by
  have h1 : 0 ≤ min (p * (7/10) + bo) 100 := le_min (by positivity) (by norm_num)
  have h2 : min (p * (7/10) + bo) 100 ≤ ((100 : ℤ) : ℚ) := by
    push_cast
    exact min_le_right _ _
  refine ⟨pyRound_nonneg _ _ h1, ?_⟩
  simpa using pyRound_le_int _ _ 100 h2

/-- Claim C8: for every pair of resume and JD skill lists, the match
percentage and the job readiness score both lie between 0 and 100. -/
theorem c8_score_bounds (resume_skills jd_skills : List String) :
    0 ≤ (calculate_semantic_match resume_skills jd_skills).match_percentage
  ∧ (calculate_semantic_match resume_skills jd_skills).match_percentage ≤ 100
  ∧ 0 ≤ (calculate_semantic_match resume_skills jd_skills).job_readiness_score
  ∧ (calculate_semantic_match resume_skills jd_skills).job_readiness_score ≤ 100 := by
  simp only [calculate_semantic_match]
  split
  · refine ⟨le_refl 0, by norm_num, le_refl 0, by norm_num⟩
  · refine ⟨(pct_bounds _ _).1, (pct_bounds _ _).2, ?_, ?_⟩
    · exact (readiness_bounds _ _ (pct_bounds _ _).1
        (pyRound_nonneg _ _ (by positivity))).1
    · exact (readiness_bounds _ _ (pct_bounds _ _).1
        (pyRound_nonneg _ _ (by positivity))).2

/-! ## Phase partition (for C7) -/

theorem tagSkills_mem_of {s : String} {l : List String} (h : s ∈ l) :
    (s, get_category s, htlOf s) ∈ tagSkills l :=
  List.mem_map_of_mem _ h

theorem tagSkills_shape {t : String × String × Nat} {l : List String}
    (h : t ∈ tagSkills l) : t.1 ∈ l ∧ t.2.2 = htlOf t.1 := by
  unfold tagSkills at h
  rcases List.mem_map.mp h with ⟨s, hs, rfl⟩
  exact ⟨hs, rfl⟩

theorem sum_filter_split (l : List (String × String × Nat)) :
    ((l.filter (fun t => t.2.2 ≤ 20)).map (fun t => t.2.2)).sum +
    ((l.filter (fun t => 20 < t.2.2)).map (fun t => t.2.2)).sum =
    (l.map (fun t => t.2.2)).sum := by
  induction l with
  | nil => rfl
  | cons a l ih =>
    by_cases h : a.2.2 ≤ 20
    · rw [List.filter_cons_of_pos (by simpa using h),
        List.filter_cons_of_neg (by simpa using h)]
      simp only [List.map_cons, List.sum_cons]
      omega
    · rw [List.filter_cons_of_neg (by simpa using h),
        List.filter_cons_of_pos (by simpa using not_le.mp h)]
      simp only [List.map_cons, List.sum_cons]
      omega

/-- Claim C7: in the result of `build_learning_velocity`, a skill of
the input appears in the "Immediate Gaps" phase exactly when its HTL
hours are at most 20 and in the "Advanced Mastery" phase exactly when
they exceed 20 (so every input skill lands in exactly one phase,
decided solely by the 20-hour threshold), and the phases' estimated
hours sum to the total estimated hours. -/
theorem c7_phase_partition (missing_skills : List String) (hours_per_week : ℤ)
    (skill : String) (hmem : skill ∈ missing_skills) :
    ((htlOf skill ≤ 20) ↔
      ∃ p ∈ (build_learning_velocity missing_skills hours_per_week).roadmap,
        p.phase = "Immediate Gaps" ∧ skill ∈ p.skills)
  ∧ ((20 < htlOf skill) ↔
      ∃ p ∈ (build_learning_velocity missing_skills hours_per_week).roadmap,
        p.phase = "Advanced Mastery" ∧ skill ∈ p.skills)
  ∧ ((build_learning_velocity missing_skills hours_per_week).roadmap.map
        (fun p => p.estimated_hours)).sum =
      (build_learning_velocity missing_skills hours_per_week).total_estimated_hours := by
  have hne : missing_skills.isEmpty = false :=
    List.isEmpty_eq_false.mpr (List.ne_nil_of_mem hmem)
  simp only [build_learning_velocity, hne, Bool.false_eq_true, if_false]
  set tagged := tagSkills missing_skills with htagged
  set P1 := tagged.filter (fun t => t.2.2 ≤ 20) with hP1def
  set P2 := tagged.filter (fun t => 20 < t.2.2) with hP2def
  refine ⟨⟨?_, ?_⟩, ⟨?_, ?_⟩, ?_⟩
  · -- htl ≤ 20 → membership in Immediate Gaps
    intro hle
    have ht : (skill, get_category skill, htlOf skill) ∈ tagged := tagSkills_mem_of hmem
    have hp1 : (skill, get_category skill, htlOf skill) ∈ P1 :=
      List.mem_filter.mpr ⟨ht, by simpa using hle⟩
    have hne1 : P1.isEmpty = false :=
      List.isEmpty_eq_false.mpr (List.ne_nil_of_mem hp1)
    refine ⟨mkPhase1 P1 (max hours_per_week 1), ?_, rfl, ?_⟩
    · apply List.mem_append_left
      rw [if_neg (by simp [hne1])]
      exact List.mem_singleton.mpr rfl
    · exact List.mem_map_of_mem _ hp1
  · -- membership in Immediate Gaps → htl ≤ 20
    rintro ⟨p, hpR, hphase, hskill⟩
    rcases List.mem_append.mp hpR with hL | hR
    · by_cases hP1e : P1.isEmpty
      · rw [if_pos hP1e] at hL
        simp at hL
      · rw [if_neg hP1e] at hL
        rcases List.mem_singleton.mp hL with rfl
        rcases List.mem_map.mp hskill with ⟨t, htP1, ht1⟩
        have hfil := List.mem_filter.mp htP1
        have hsh := tagSkills_shape hfil.1
        have hle : t.2.2 ≤ 20 := by simpa using hfil.2
        rw [← ht1, ← hsh.2]
        exact hle
    · by_cases hP2e : P2.isEmpty
      · rw [if_pos hP2e] at hR
        simp at hR
      · rw [if_neg hP2e] at hR
        rcases List.mem_singleton.mp hR with rfl
        simp [mkPhase2] at hphase
  · -- 20 < htl → membership in Advanced Mastery
    intro hlt
    have ht : (skill, get_category skill, htlOf skill) ∈ tagged := tagSkills_mem_of hmem
    have hp2 : (skill, get_category skill, htlOf skill) ∈ P2 :=
      List.mem_filter.mpr ⟨ht, by simpa using hlt⟩
    have hne2 : P2.isEmpty = false :=
      List.isEmpty_eq_false.mpr (List.ne_nil_of_mem hp2)
    refine ⟨mkPhase2 P1 P2 ((tagged.map (fun t => t.2.2)).sum) (max hours_per_week 1),
      ?_, rfl, ?_⟩
    · apply List.mem_append_right
      rw [if_neg (by simp [hne2])]
      exact List.mem_singleton.mpr rfl
    · exact List.mem_map_of_mem _ hp2
  · -- membership in Advanced Mastery → 20 < htl
    rintro ⟨p, hpR, hphase, hskill⟩
    rcases List.mem_append.mp hpR with hL | hR
    · by_cases hP1e : P1.isEmpty
      · rw [if_pos hP1e] at hL
        simp at hL
      · rw [if_neg hP1e] at hL
        rcases List.mem_singleton.mp hL with rfl
        simp [mkPhase1] at hphase
    · by_cases hP2e : P2.isEmpty
      · rw [if_pos hP2e] at hR
        simp at hR
      · rw [if_neg hP2e] at hR
        rcases List.mem_singleton.mp hR with rfl
        rcases List.mem_map.mp hskill with ⟨t, htP2, ht1⟩
        have hfil := List.mem_filter.mp htP2
        have hsh := tagSkills_shape hfil.1
        have hlt : 20 < t.2.2 := by simpa using hfil.2
        rw [← ht1, ← hsh.2]
        exact hlt
  · -- the phases' estimated hours sum to the total
    have hsplit := sum_filter_split tagged
    rw [← hP1def, ← hP2def] at hsplit
    by_cases hP1e : P1.isEmpty <;> by_cases hP2e : P2.isEmpty
    · rw [if_pos hP1e, if_pos hP2e]
      rw [List.isEmpty_iff.mp hP1e, List.isEmpty_iff.mp hP2e] at hsplit
      simp only [List.map_nil, List.sum_nil] at hsplit
      simp only [List.append_nil, List.map_nil, List.sum_nil]
      omega
    · rw [if_pos hP1e, if_neg hP2e]
      rw [List.isEmpty_iff.mp hP1e] at hsplit
      simp only [List.map_nil, List.sum_nil] at hsplit
      simp only [List.nil_append, List.map_cons, List.map_nil, List.sum_cons,
        List.sum_nil, mkPhase2]
      omega
    · rw [if_neg hP1e, if_pos hP2e]
      rw [List.isEmpty_iff.mp hP2e] at hsplit
      simp only [List.map_nil, List.sum_nil] at hsplit
      simp only [List.append_nil, List.map_cons, List.map_nil, List.sum_cons,
        List.sum_nil, mkPhase1]
      omega
    · rw [if_neg hP1e, if_neg hP2e]
      simp only [List.cons_append, List.nil_append, List.map_cons, List.map_nil,
        List.sum_cons, List.sum_nil, mkPhase1, mkPhase2]
      omega

/-- Witness for C7, at the missing list ["aws"] with 10 hours per week:
aws has 20 HTL hours, so it lies in the Immediate Gaps phase and not in
an Advanced Mastery phase, and the phase hours sum to the total. -/
theorem c7_witness :
    ((htlOf "aws" ≤ 20) ↔
      ∃ p ∈ (build_learning_velocity ["aws"] 10).roadmap,
        p.phase = "Immediate Gaps" ∧ "aws" ∈ p.skills)
  ∧ ((20 < htlOf "aws") ↔
      ∃ p ∈ (build_learning_velocity ["aws"] 10).roadmap,
        p.phase = "Advanced Mastery" ∧ "aws" ∈ p.skills)
  ∧ (((build_learning_velocity ["aws"] 10).roadmap.map
        (fun p => p.estimated_hours)).sum =
      (build_learning_velocity ["aws"] 10).total_estimated_hours) :=
  c7_phase_partition ["aws"] 10 "aws" (List.mem_singleton.mpr rfl)

end SkillRoute

